import Mathlib

/-!
Verification of the outfit-generation and suggestion-caching engine of the
clos8-style-sense-ai wardrobe application.

The definitions below are a shallow embedding of the TypeScript source:

* `src/services/geminiService.ts` — color normalizer (`getColorName`),
  category lookup (`getCategoryNameFromId`), matcher (`findMatchingItems`),
  request-rate tracker (`requestTracker`), suggestion source
  (`getOutfitSuggestions`) and the deterministic mock (`mockGeminiResponse`).
* the outfit context (`OutfitProvider`) — suggestion cache
  (`checkSuggestionCache`, `addToSuggestionCache`, the load-time filter),
  per-day generation (`generateOutfitForDay`), the weekly generator
  (`generateWeeklyOutfits`) and the single-day regenerator
  (`regenerateOutfitForDay`), with the module-level in-progress guard.
* `src/context/WardrobeContext.tsx` — `getItemsByType`.

External nondeterminism (`Math.random()`, the network reply of the Gemini
endpoint, `JSON.parse` of cached strings, persistence failures of the
Supabase store) is passed in explicitly as oracle parameters; machine time
(`Date.now()`) is a `Nat` millisecond clock.  Stateful React refs and the
persisted Supabase `outfits` table are threaded as explicit state.
-/

namespace StyleSense

/-- JavaScript `s.toLowerCase()`, modelled on the character list of the
string (the core `String.toLower` does not reduce in the kernel). -/
def jsLower (s : String) : String :=
  ⟨s.data.map Char.toLower⟩

/-- JavaScript `s.toUpperCase()`. -/
def jsUpper (s : String) : String :=
  ⟨s.data.map Char.toUpper⟩

/-- JavaScript `s.startsWith(pre)`. -/
def jsStartsWith (s pre : String) : Bool :=
  pre.data.isPrefixOf s.data

/-- JavaScript `haystack.includes(needle)`: substring containment,
modelled as infix containment of the character lists. -/
def strIncludes (haystack needle : String) : Bool :=
  decide (needle.data <:+: haystack.data)

/-- The `ClothingType` union type `'upper' | 'bottom'`. -/
inductive ClothingType
  | upper
  | bottom
deriving DecidableEq, Repr, Inhabited

/-- The string carried by a `ClothingType` value in the source. -/
def ClothingType.str : ClothingType → String
  | .upper => "upper"
  | .bottom => "bottom"

/-- A `ClothingItem` record, restricted to the fields the engine reads. -/
structure ClothingItem where
  id : String
  type : ClothingType
  categoryId : String
  subcategoryId : String
  color : String
deriving DecidableEq, Repr, Inhabited

/-- A `SuggestionItem` of `geminiService.ts`: `type` and `category` are
required strings, `subcategory` and `color` are optional. -/
structure SuggestionItem where
  type : String
  category : String
  subcategory : Option String := none
  color : Option String := none
deriving DecidableEq, Repr

/-- A `MatchResponse`: the envelope holding a list of suggestions. -/
structure MatchResponse where
  suggestions : List SuggestionItem
deriving DecidableEq, Repr

/-- The hex-to-name color table of `getColorName`. -/
def colorMap : List (String × String) :=
  [("#000000", "black"), ("#FFFFFF", "white"), ("#0000FF", "blue"),
   ("#FF0000", "red"), ("#00FF00", "green"), ("#FFFF00", "yellow"),
   ("#FFA500", "orange"), ("#800080", "purple"), ("#A52A2A", "brown"),
   ("#FFC0CB", "pink"), ("#808080", "gray"), ("#F0E68C", "khaki")]

/-- `getColorName` of `geminiService.ts`: non-`#` inputs are lowercased,
`#` inputs are uppercased and looked up in `colorMap`, falling back to the
normalized hex string itself. -/
def getColorName (hexColor : String) : String :=
  if !(jsStartsWith hexColor "#") then
    jsLower hexColor
  else
    let normalizedHex := jsUpper hexColor
    match colorMap.find? (fun p => p.1 == normalizedHex) with
    | some p => p.2
    | none => normalizedHex

/-- The color pool the mock draws from for black/white uppers. -/
def mockColorChoices : List String := ["blue", "black", "beige", "gray"]

/-- `mockGeminiResponse` of `geminiService.ts`.  The two `Math.random()`
draws of the black/white-upper branch are the `coin` (`> 0.5`) and
`colorIdx` (`Math.floor(Math.random() * 4)`, taken modulo 4) oracles.  The
artificial 500 ms delay has no semantic content and is dropped. -/
def mockGeminiResponse (item : ClothingItem) (colorName category : String)
    (coin : Bool) (colorIdx : Nat) : MatchResponse :=
  match item.type with
  | .upper =>
    if colorName == "black" || colorName == "white" then
      { suggestions := [{ type := "bottom",
                          category := if coin then "Jeans" else "Pants",
                          color := some (mockColorChoices.getD (colorIdx % 4) "blue") }] }
    else if colorName == "blue" then
      { suggestions := [{ type := "bottom", category := "Jeans", color := some "blue" }] }
    else
      { suggestions := [{ type := "bottom", category := "Pants", color := some "black" }] }
  | .bottom =>
    if strIncludes (jsLower category) "jeans" then
      { suggestions := [{ type := "upper", category := "T-Shirt", color := some "white" }] }
    else if strIncludes (jsLower category) "pants" then
      { suggestions := [{ type := "upper", category := "Sweater", color := some "black" }] }
    else
      { suggestions := [{ type := "upper", category := "T-Shirt",
                          color := some (if colorName == "black" then "white" else "black") }] }

/-- C9: `getColorName` returns the documented lowercase name for every entry
of the known color table (matched case-insensitively via uppercase
normalization); any other `#`-prefixed input is returned uppercase-normalized
with the `#` prefix retained; any input not starting with `#` is returned
lowercased. -/
theorem getColorName_spec (s : String) :
    (jsStartsWith s "#" = false → getColorName s = jsLower s) ∧
    (jsStartsWith s "#" = true →
      colorMap.find? (fun p => p.1 == jsUpper s) = none → getColorName s = jsUpper s) ∧
    (∀ hex name, (hex, name) ∈ colorMap → jsUpper s = hex → jsStartsWith s "#" = true →
      getColorName s = name) := by
  refine ⟨?_, ?_, ?_⟩
  · intro h
    simp [getColorName, h]
  · intro h hf
    simp [getColorName, h, hf]
  · intro hex name hmem hup hs
    have hfind : colorMap.find? (fun p => p.1 == jsUpper s) = some (hex, name) := by
      rw [hup]
      fin_cases hmem <;> rfl
    simp [getColorName, hs, hfind]

/-- C9 witness: `getColorName_spec` applied to a non-hex name, an unmapped
hex string, and a lowercase-written known hex color. -/
theorem getColorName_spec_witness :
    getColorName "Blue" = "blue" ∧ getColorName "#1A2B3C" = "#1A2B3C" ∧
    getColorName "#ffc0cb" = "pink" :=
  ⟨(getColorName_spec "Blue").1 (by decide),
   (getColorName_spec "#1A2B3C").2.1 (by decide) (by decide),
   (getColorName_spec "#ffc0cb").2.2 "#FFC0CB" "pink" (by decide) (by decide) (by decide)⟩

/-- C8: the mock generator yields exactly one suggestion, and follows the
fixed rule table: an upper seed with color blue maps to bottom/Jeans/blue;
an upper seed with another color (not black/white/blue) maps to
bottom/Pants/black; a black-or-white upper seed maps to bottom with the
coin-chosen category (Jeans/Pants) and a color drawn from the four-color
pool; a bottom seed whose category contains jeans maps to
upper/T-Shirt/white; containing pants (and not jeans) maps to
upper/Sweater/black; any other bottom seed maps to upper/T-Shirt with
white when the seed color is black and black otherwise. -/
theorem mockGeminiResponse_rules (item : ClothingItem) (colorName category : String)
    (coin : Bool) (colorIdx : Nat) :
    (mockGeminiResponse item colorName category coin colorIdx).suggestions.length = 1 ∧
    (item.type = .upper → colorName = "blue" →
      mockGeminiResponse item colorName category coin colorIdx =
        { suggestions := [{ type := "bottom", category := "Jeans", color := some "blue" }] }) ∧
    (item.type = .upper → colorName ≠ "black" → colorName ≠ "white" → colorName ≠ "blue" →
      mockGeminiResponse item colorName category coin colorIdx =
        { suggestions := [{ type := "bottom", category := "Pants", color := some "black" }] }) ∧
    (item.type = .upper → (colorName = "black" ∨ colorName = "white") →
      mockGeminiResponse item colorName category coin colorIdx =
        { suggestions := [{ type := "bottom",
                            category := if coin then "Jeans" else "Pants",
                            color := some (mockColorChoices.getD (colorIdx % 4) "blue") }] }) ∧
    (item.type = .bottom → strIncludes (jsLower category) "jeans" = true →
      mockGeminiResponse item colorName category coin colorIdx =
        { suggestions := [{ type := "upper", category := "T-Shirt", color := some "white" }] }) ∧
    (item.type = .bottom → strIncludes (jsLower category) "jeans" = false →
      strIncludes (jsLower category) "pants" = true →
      mockGeminiResponse item colorName category coin colorIdx =
        { suggestions := [{ type := "upper", category := "Sweater", color := some "black" }] }) ∧
    (item.type = .bottom → strIncludes (jsLower category) "jeans" = false →
      strIncludes (jsLower category) "pants" = false →
      mockGeminiResponse item colorName category coin colorIdx =
        { suggestions := [{ type := "upper", category := "T-Shirt",
                            color := some (if colorName == "black" then "white" else "black") }] }) := by
  obtain ⟨iid, ty, icat, isub, icol⟩ := item
  refine ⟨?_, ?_, ?_, ?_, ?_, ?_, ?_⟩
  · cases ty <;> simp only [mockGeminiResponse] <;> split_ifs <;> rfl
  · intro hty hc
    cases ty with
    | bottom => exact absurd hty (by simp)
    | upper => subst hc; rfl
  · intro hty h1 h2 h3
    cases ty with
    | bottom => exact absurd hty (by simp)
    | upper => simp [mockGeminiResponse, h1, h2, h3]
  · intro hty hc
    cases ty with
    | bottom => exact absurd hty (by simp)
    | upper => rcases hc with hc | hc <;> subst hc <;> rfl
  · intro hty hj
    cases ty with
    | upper => exact absurd hty (by simp)
    | bottom => simp [mockGeminiResponse, hj]
  · intro hty hj hp
    cases ty with
    | upper => exact absurd hty (by simp)
    | bottom => simp [mockGeminiResponse, hj, hp]
  · intro hty hj hp
    cases ty with
    | upper => exact absurd hty (by simp)
    | bottom => simp [mockGeminiResponse, hj, hp]

/-- C8 witness: the blue-upper rule and the other-category bottom rule of
`mockGeminiResponse_rules`, evaluated at concrete seeds. -/
theorem mockGeminiResponse_rules_witness :
    mockGeminiResponse ⟨"i1", .upper, "cat-1", "sub-1", "#0000FF"⟩ "blue" "T-Shirt" true 0 =
      { suggestions := [{ type := "bottom", category := "Jeans", color := some "blue" }] } ∧
    mockGeminiResponse ⟨"i2", .bottom, "cat-6", "sub-2", "#000000"⟩ "black" "Shorts" false 1 =
      { suggestions := [{ type := "upper", category := "T-Shirt", color := some "white" }] } :=
  ⟨(mockGeminiResponse_rules ⟨"i1", .upper, "cat-1", "sub-1", "#0000FF"⟩ "blue" "T-Shirt"
      true 0).2.1 rfl rfl,
   by
    have h := (mockGeminiResponse_rules ⟨"i2", .bottom, "cat-6", "sub-2", "#000000"⟩ "black"
      "Shorts" false 1).2.2.2.2.2.2 rfl (by decide) (by decide)
    simpa using h⟩

/-- The hardcoded category lookup of `geminiService.ts`
(`getCategoryNameFromId`): unknown ids fall back to the id itself. -/
def getCategoryNameFromId (categoryId : String) : String :=
  let categoryMap : List (String × String) :=
    [("cat-1", "T-Shirt"), ("cat-2", "Shirt"), ("cat-3", "Sweater"),
     ("cat-4", "Jeans"), ("cat-5", "Pants"), ("cat-6", "Shorts")]
  match categoryMap.find? (fun p => p.1 == categoryId) with
  | some p => p.2
  | none => categoryId

/-- The per-item filter predicate inside `findMatchingItems`: type equality,
then case-insensitive substring containment of the suggested category in the
raw category id or its resolved name (an empty category string is falsy in
the source and imposes no constraint), then the same containment rule for an
optional color.  The suggestion's `subcategory` field is not consulted. -/
def matchesSuggestion (suggestion : SuggestionItem) (item : ClothingItem) : Bool :=
  let typeMatch := item.type.str == suggestion.type
  if !typeMatch then false
  else
    let categoryMatch :=
      if suggestion.category == "" then true
      else
        strIncludes (jsLower item.categoryId) (jsLower suggestion.category) ||
        strIncludes (jsLower (getCategoryNameFromId item.categoryId))
          (jsLower suggestion.category)
    let colorMatch :=
      match suggestion.color with
      | some c => if c == "" then true else strIncludes (jsLower item.color) (jsLower c)
      | none => true
    typeMatch && categoryMatch && colorMatch

/-- `findMatchingItems` of `geminiService.ts`: for each non-null suggestion,
filter the candidate pool with `matchesSuggestion` and, when the filtered
list is nonempty, push one random element of it (`Math.floor(Math.random() *
length)` is the head of the `rand` oracle, taken modulo the length). -/
def findMatchingItems :
    List (Option SuggestionItem) → List ClothingItem → List Nat → List ClothingItem
  | [], _, _ => []
  | none :: rest, availableItems, rand => findMatchingItems rest availableItems rand
  | some suggestion :: rest, availableItems, rand =>
    let matchingItems := availableItems.filter (matchesSuggestion suggestion)
    if 0 < matchingItems.length then
      matchingItems.getD (rand.headD 0 % matchingItems.length) default ::
        findMatchingItems rest availableItems rand.tail
    else
      findMatchingItems rest availableItems rand

/-- Type equality is a conjunct of the matcher's filter. -/
theorem matchesSuggestion_type {suggestion : SuggestionItem} {item : ClothingItem}
    (h : matchesSuggestion suggestion item = true) : item.type.str = suggestion.type := by
  by_cases ht : (item.type.str == suggestion.type) = true
  · exact eq_of_beq ht
  · simp only [matchesSuggestion] at h
    rw [Bool.eq_false_iff.mpr ht] at h
    simp at h

/-- Every output of the matcher comes from the candidate pool and satisfies
the filter for one of the suggestions. -/
theorem mem_findMatchingItems {availableItems : List ClothingItem} :
    ∀ (suggestions : List (Option SuggestionItem)) (rand : List Nat)
      (x : ClothingItem), x ∈ findMatchingItems suggestions availableItems rand →
      x ∈ availableItems ∧
        ∃ s, some s ∈ suggestions ∧ matchesSuggestion s x = true := by
  intro suggestions
  induction suggestions with
  | nil => intro rand x hx; simp [findMatchingItems] at hx
  | cons head rest ih =>
    intro rand x hx
    cases head with
    | none =>
      obtain ⟨hmem, s, hs, hm⟩ := ih rand x hx
      exact ⟨hmem, s, List.mem_cons_of_mem _ hs, hm⟩
    | some suggestion =>
      rw [findMatchingItems] at hx
      by_cases h : 0 < (availableItems.filter (matchesSuggestion suggestion)).length
      · rw [if_pos h] at hx
        rcases List.mem_cons.mp hx with hx | hx
        · subst hx
          have hget : (availableItems.filter (matchesSuggestion suggestion)).getD
              (rand.headD 0 % (availableItems.filter (matchesSuggestion suggestion)).length)
              default ∈ availableItems.filter (matchesSuggestion suggestion) := by
            rw [List.getD_eq_getElem _ _ (Nat.mod_lt _ h)]
            exact List.getElem_mem _
          have hf := List.mem_filter.mp hget
          exact ⟨hf.1, suggestion, List.mem_cons_self _ _, hf.2⟩
        · obtain ⟨hmem, s, hs, hm⟩ := ih rand.tail x hx
          exact ⟨hmem, s, List.mem_cons_of_mem _ hs, hm⟩
      · rw [if_neg h] at hx
        obtain ⟨hmem, s, hs, hm⟩ := ih rand x hx
        exact ⟨hmem, s, List.mem_cons_of_mem _ hs, hm⟩

/-- The matcher contributes exactly one item for each non-null suggestion
that has at least one matching candidate, and nothing for the others. -/
theorem findMatchingItems_length {availableItems : List ClothingItem} :
    ∀ (suggestions : List (Option SuggestionItem)) (rand : List Nat),
      (findMatchingItems suggestions availableItems rand).length =
        (suggestions.filter (fun o =>
          match o with
          | some s => !(availableItems.filter (matchesSuggestion s)).isEmpty
          | none => false)).length := by
  intro suggestions
  induction suggestions with
  | nil => intro rand; rfl
  | cons head rest ih =>
    intro rand
    cases head with
    | none => simpa [findMatchingItems, List.filter] using ih rand
    | some suggestion =>
      rw [findMatchingItems]
      by_cases h : 0 < (availableItems.filter (matchesSuggestion suggestion)).length
      · have hne : (availableItems.filter (matchesSuggestion suggestion)).isEmpty = false := by
          cases hl : availableItems.filter (matchesSuggestion suggestion) with
          | nil => rw [hl] at h; simp at h
          | cons a l => simp [List.isEmpty]
        rw [if_pos h]
        simpa [List.filter, hne] using ih rand.tail
      · have hne : (availableItems.filter (matchesSuggestion suggestion)).isEmpty = true := by
          cases hl : availableItems.filter (matchesSuggestion suggestion) with
          | nil => simp [List.isEmpty]
          | cons a l => rw [hl] at h; simp at h
        rw [if_neg h]
        simpa [List.filter, hne] using ih rand

/-- C5: `findMatchingItems` returns only candidate-pool items whose
body-slot type equals the type of some suggestion in the input (never a
cross-slot item), and its output length equals the number of non-null
suggestions possessing at least one matching candidate — so each
suggestion contributes at most one item, and a suggestion with no matching
candidate contributes nothing. -/
theorem findMatchingItems_spec (suggestions : List (Option SuggestionItem))
    (availableItems : List ClothingItem) (rand : List Nat) :
    (∀ x ∈ findMatchingItems suggestions availableItems rand,
      x ∈ availableItems ∧ ∃ s, some s ∈ suggestions ∧
        matchesSuggestion s x = true ∧ x.type.str = s.type) ∧
    (findMatchingItems suggestions availableItems rand).length =
      (suggestions.filter (fun o =>
        match o with
        | some s => !(availableItems.filter (matchesSuggestion s)).isEmpty
        | none => false)).length := by
  refine ⟨?_, findMatchingItems_length suggestions rand⟩
  intro x hx
  obtain ⟨hmem, s, hs, hm⟩ := mem_findMatchingItems suggestions rand x hx
  exact ⟨hmem, s, hs, hm, matchesSuggestion_type hm⟩

/-- A concrete candidate used by the matcher witnesses: blue jeans. -/
def wJeansItem : ClothingItem :=
  { id := "b1", type := .bottom, categoryId := "cat-4", subcategoryId := "sub-1",
    color := "blue" }

/-- A concrete suggestion used by the matcher witnesses. -/
def wJeansSugg : SuggestionItem :=
  { type := "bottom", category := "Jeans", color := some "blue" }

/-- C5 witness: `findMatchingItems_spec` applied to a one-suggestion,
one-candidate pool in which the candidate matches. -/
theorem findMatchingItems_spec_witness :
    (wJeansItem ∈ [wJeansItem] ∧ ∃ s, some s ∈ [some wJeansSugg] ∧
      matchesSuggestion s wJeansItem = true ∧ wJeansItem.type.str = s.type) ∧
    (findMatchingItems [some wJeansSugg] [wJeansItem] [0]).length = 1 :=
  ⟨(findMatchingItems_spec [some wJeansSugg] [wJeansItem] [0]).1 wJeansItem (by decide),
   by
    have h := (findMatchingItems_spec [some wJeansSugg] [wJeansItem] [0]).2
    simpa using h⟩

/-- The subcategory filtering rule the specification claims the matcher
applies, stated from the spec's words for comparison with the code's
`matchesSuggestion`: a suggestion carrying a subcategory label keeps only
items whose subcategory id contains the label as a case-insensitive
substring (the matcher has no subcategory-name resolver in scope, so the
raw id is the only subcategory field the claimed rule can inspect);
absence of the label passes all items. -/
def specSubcategoryRule (suggestion : SuggestionItem) (item : ClothingItem) : Bool :=
  match suggestion.subcategory with
  | some lbl => strIncludes (jsLower item.subcategoryId) (jsLower lbl)
  | none => true

/-- A suggestion with a subcategory label that matches no candidate's
subcategory, used to refute the claimed subcategory rule. -/
def cexSubcatSugg : SuggestionItem :=
  { type := "bottom", category := "Jeans", subcategory := some "skinny",
    color := some "blue" }

/-- C6 counterexample: the matcher returns the blue-jeans candidate even
though the suggestion's subcategory label "skinny" is not contained in the
candidate's subcategory id "sub-1" — the claimed subcategory filter is not
applied. -/
theorem findMatchingItems_subcategory_cex :
    findMatchingItems [some cexSubcatSugg] [wJeansItem] [0] = [wJeansItem] ∧
    cexSubcatSugg.subcategory = some "skinny" ∧
    specSubcategoryRule cexSubcatSugg wJeansItem = false := by decide

/-- C6 amended: `findMatchingItems` ignores the `subcategory` field of every
suggestion entirely — replacing the subcategory fields of the suggestions by
anything at all leaves the result unchanged; filtering uses only the type,
category and color fields. -/
theorem findMatchingItems_ignores_subcategory
    (suggestions : List (Option SuggestionItem)) (availableItems : List ClothingItem)
    (rand : List Nat) (f : SuggestionItem → Option String) :
    findMatchingItems
        (suggestions.map (Option.map (fun s => { s with subcategory := f s })))
        availableItems rand =
      findMatchingItems suggestions availableItems rand := by
  induction suggestions generalizing rand with
  | nil => rfl
  | cons head rest ih =>
    cases head with
    | none =>
      simpa [findMatchingItems] using ih rand
    | some s =>
      have hm : matchesSuggestion { s with subcategory := f s } = matchesSuggestion s := rfl
      simp only [List.map_cons, Option.map_some']
      rw [findMatchingItems, findMatchingItems, hm]
      by_cases h : 0 < (availableItems.filter (matchesSuggestion s)).length
      · rw [if_pos h, if_pos h, ih rand.tail]
      · rw [if_neg h, if_neg h, ih rand]

/-- `CACHE_DURATION` of the outfit context: 24 hours in milliseconds. -/
def CACHE_DURATION : Nat := 24 * 60 * 60 * 1000

/-- An `OutfitSuggestionCache` entry: item id, serialized suggestions,
write timestamp. -/
structure OutfitSuggestionCache where
  itemId : String
  suggestions : List String
  timestamp : Nat
deriving DecidableEq, Repr

/-- `checkSuggestionCache` of the outfit context: find the entry for the
item and return its suggestions when `now - timestamp < CACHE_DURATION`,
`none` otherwise.  The read does not modify the cache. -/
def checkSuggestionCache (suggestionCache : List OutfitSuggestionCache)
    (itemId : String) (now : Nat) : Option (List String) :=
  match suggestionCache.find? (fun entry => entry.itemId == itemId) with
  | some cacheEntry =>
    if now - cacheEntry.timestamp < CACHE_DURATION then some cacheEntry.suggestions
    else none
  | none => none

/-- `addToSuggestionCache` of the outfit context: drop any entry for the
item, then append the fresh entry. -/
def addToSuggestionCache (prevCache : List OutfitSuggestionCache) (itemId : String)
    (suggestions : List String) (now : Nat) : List OutfitSuggestionCache :=
  prevCache.filter (fun entry => entry.itemId != itemId) ++
    [{ itemId := itemId, suggestions := suggestions, timestamp := now }]

/-- The expiry filter the outfit context applies when loading the cache
from `localStorage`: only entries younger than `CACHE_DURATION` survive. -/
def filterValidCacheEntries (parsedCache : List OutfitSuggestionCache)
    (now : Nat) : List OutfitSuggestionCache :=
  parsedCache.filter (fun entry => decide (now - entry.timestamp < CACHE_DURATION))

/-- After `addToSuggestionCache`, the lookup for the written id finds
exactly the fresh entry. -/
theorem find?_addToSuggestionCache (cache : List OutfitSuggestionCache)
    (itemId : String) (suggs : List String) (T : Nat) :
    (addToSuggestionCache cache itemId suggs T).find?
        (fun entry => entry.itemId == itemId) =
      some { itemId := itemId, suggestions := suggs, timestamp := T } := by
  induction cache with
  | nil => simp [addToSuggestionCache, List.find?]
  | cons head rest ih =>
    rw [addToSuggestionCache] at ih ⊢
    rw [List.filter_cons]
    by_cases h : (head.itemId == itemId) = true
    · have hb : (head.itemId != itemId) = false := by simp [bne, h]
      rw [hb, if_neg (by simp)]
      exact ih
    · have h' : (head.itemId == itemId) = false := by simpa using h
      have hb : (head.itemId != itemId) = true := by simp [bne, h']
      rw [hb, if_pos rfl, List.cons_append, List.find?, h']
      exact ih

/-- C4 counterexample: an entry written at time 0 and read exactly at
`CACHE_DURATION` (= T + 24h, inside the claim's "≤ T+24h" window) is
treated as absent — the code's validity test is strict (`<`), so the claim
fails at the window boundary. -/
theorem checkSuggestionCache_expiry_cex :
    CACHE_DURATION ≤ 0 + CACHE_DURATION ∧
    checkSuggestionCache (addToSuggestionCache [] "item-1" ["s1"] 0) "item-1"
        CACHE_DURATION = none := by decide

/-- C4 amended: an entry written at time T is returned by a read at any
time `now` with `now - T < 24h` and treated as absent once
`now - T ≥ 24h`; the read itself never drops the entry (it is a pure
lookup), and expired entries are instead evicted by the load-time filter
`filterValidCacheEntries`, which keeps exactly the non-expired entries. -/
theorem suggestionCache_window (cache : List OutfitSuggestionCache)
    (itemId : String) (suggs : List String) (T now : Nat) :
    (now - T < CACHE_DURATION →
      checkSuggestionCache (addToSuggestionCache cache itemId suggs T) itemId now =
        some suggs) ∧
    (CACHE_DURATION ≤ now - T →
      checkSuggestionCache (addToSuggestionCache cache itemId suggs T) itemId now =
        none) ∧
    (∀ entry, entry ∈ filterValidCacheEntries cache now ↔
      entry ∈ cache ∧ now - entry.timestamp < CACHE_DURATION) := by
  have hf := find?_addToSuggestionCache cache itemId suggs T
  refine ⟨?_, ?_, ?_⟩
  · intro h
    simp [checkSuggestionCache, hf, h]
  · intro h
    simp [checkSuggestionCache, hf, Nat.not_lt.mpr h]
  · intro entry
    simp [filterValidCacheEntries, List.mem_filter]

/-- C4 witness: `suggestionCache_window` applied to a fresh read one
millisecond before expiry and a stale read one millisecond after. -/
theorem suggestionCache_window_witness :
    checkSuggestionCache (addToSuggestionCache [] "item-1" ["s1"] 5) "item-1"
        (5 + CACHE_DURATION - 1) = some ["s1"] ∧
    checkSuggestionCache (addToSuggestionCache [] "item-1" ["s1"] 5) "item-1"
        (5 + CACHE_DURATION + 1) = none :=
  ⟨(suggestionCache_window [] "item-1" ["s1"] 5 (5 + CACHE_DURATION - 1)).1 (by decide),
   (suggestionCache_window [] "item-1" ["s1"] 5 (5 + CACHE_DURATION + 1)).2.1 (by decide)⟩

/-- The module-level `requestTracker` of `geminiService.ts`: time of the
last tracked request, the in-window request count, and the scheduled fire
time of the pending `setTimeout` reset (if any). -/
structure RequestTracker where
  lastRequestTime : Nat := 0
  requestCount : Nat := 0
  resetTimer : Option Nat := none
deriving DecidableEq, Repr

/-- The event-loop firing of the tracker's pending reset timeout: when its
scheduled time has passed, the counter is zeroed and the timer cleared. -/
def fireResetTimer (t : RequestTracker) (now : Nat) : RequestTracker :=
  match t.resetTimer with
  | some fireTime =>
    if fireTime ≤ now then { t with requestCount := 0, resetTimer := none } else t
  | none => t

/-- `requestTracker.canMakeRequest`: reset the counter when the last
request left the rolling minute window, then answer whether fewer than 60
requests are in the window.  Returns the answer and the (possibly reset)
tracker, since the source mutates `this`. -/
def canMakeRequest (t : RequestTracker) (now : Nat) : Bool × RequestTracker :=
  let oneMinuteAgo := now - 60000
  let t := if t.lastRequestTime < oneMinuteAgo then { t with requestCount := 0 } else t
  (decide (t.requestCount < 60), t)

/-- `requestTracker.trackRequest`: stamp the time, bump the counter, and
schedule a reset timeout 60 s out when none is pending. -/
def trackRequest (t : RequestTracker) (now : Nat) : RequestTracker :=
  let t := { t with lastRequestTime := now, requestCount := t.requestCount + 1 }
  match t.resetTimer with
  | none => { t with resetTimer := some (now + 60000) }
  | some _ => t

/-- The externally observed outcome of the Gemini fetch: a non-2xx status,
an unparsable/invalid reply, or a successfully parsed suggestions array. -/
inductive ExternalResult
  | httpError (status : Nat)
  | malformed
  | ok (suggestions : List SuggestionItem)
deriving DecidableEq, Repr

/-- JavaScript `mapping[key] || dflt`: record lookup with a falsy
(missing or empty) fallback. -/
def mapLookup (m : List (String × String)) (k dflt : String) : String :=
  match m.find? (fun p => p.1 == k) with
  | some p => if p.2 == "" then dflt else p.2
  | none => dflt

/-- The result of one `getOutfitSuggestions` call: the resolved response,
the tracker state after the call, and whether the external endpoint was
actually attempted (a fetch was issued). -/
structure SuggestionCallResult where
  response : MatchResponse
  tracker : RequestTracker
  attemptedExternal : Bool
deriving DecidableEq, Repr

/-- `getOutfitSuggestions` of `geminiService.ts`.  Control flow of the
source: if the rate tracker forbids a request, a 429 `GeminiApiError` is
thrown and caught by the outer handler, which resolves with the mock; with
no API key the mock is returned directly; otherwise the request is tracked
and the fetch attempted, any HTTP error or malformed reply again falling
back to the mock.  No state beyond the tracker survives the call — in
particular a 429 reply sets no cool-down flag. -/
def getOutfitSuggestions (tracker : RequestTracker) (now : Nat)
    (apiKey : Option String) (item : ClothingItem)
    (categoryMapping : List (String × String)) (external : ExternalResult)
    (mockCoin : Bool) (mockColorIdx : Nat) : SuggestionCallResult :=
  let tracker1 := fireResetTimer tracker now
  let can := (canMakeRequest tracker1 now).1
  let tracker2 := (canMakeRequest tracker1 now).2
  let mock := mockGeminiResponse item (getColorName item.color)
    (mapLookup categoryMapping item.categoryId "unknown") mockCoin mockColorIdx
  if !can then
    { response := mock, tracker := tracker2, attemptedExternal := false }
  else
    match apiKey with
    | none => { response := mock, tracker := tracker2, attemptedExternal := false }
    | some _ =>
      let tracker3 := trackRequest tracker2 now
      match external with
      | .ok suggestions =>
        { response := { suggestions := suggestions }, tracker := tracker3,
          attemptedExternal := true }
      | _ => { response := mock, tracker := tracker3, attemptedExternal := true }

/-- The initial state of the module-level request tracker. -/
def tracker0 : RequestTracker := {}

/-- The red upper item used to exercise the suggestion source. -/
def c7Item : ClothingItem :=
  { id := "i3", type := .upper, categoryId := "cat-1", subcategoryId := "sub-1",
    color := "#FF0000" }

/-- C7 counterexample: after a call at time 0 whose external reply is
HTTP 429, a second call only one second later — well inside the claimed
60-second cool-down — still attempts the external endpoint: no global
cool-down state exists in the code. -/
theorem getOutfitSuggestions_no_cooldown_cex :
    (getOutfitSuggestions
        (getOutfitSuggestions tracker0 0 (some "key") c7Item [] (.httpError 429)
          true 0).tracker
        1000 (some "key") c7Item [] (.ok []) true 0).attemptedExternal = true := by
  decide

/-- C7 amended: a 429 reply makes that call itself resolve with the mock
result, but sets no cool-down: whether any call attempts the external
endpoint depends only on the rolling-window request counter and the
presence of an API key — the call skips the external attempt (resolving
with the mock) exactly when the counter has reached 60 inside the window
or the key is absent. -/
theorem getOutfitSuggestions_rateLimiter_spec (tracker : RequestTracker) (now : Nat)
    (apiKey : Option String) (item : ClothingItem)
    (categoryMapping : List (String × String)) (external : ExternalResult)
    (mockCoin : Bool) (mockColorIdx : Nat) :
    (getOutfitSuggestions tracker now apiKey item categoryMapping external mockCoin
        mockColorIdx).attemptedExternal =
      ((canMakeRequest (fireResetTimer tracker now) now).1 && apiKey.isSome) ∧
    (external = .httpError 429 →
      (getOutfitSuggestions tracker now apiKey item categoryMapping external mockCoin
          mockColorIdx).response =
        mockGeminiResponse item (getColorName item.color)
          (mapLookup categoryMapping item.categoryId "unknown") mockCoin mockColorIdx) ∧
    ((canMakeRequest (fireResetTimer tracker now) now).1 = false →
      getOutfitSuggestions tracker now apiKey item categoryMapping external mockCoin
          mockColorIdx =
        { response := mockGeminiResponse item (getColorName item.color)
            (mapLookup categoryMapping item.categoryId "unknown") mockCoin mockColorIdx,
          tracker := (canMakeRequest (fireResetTimer tracker now) now).2,
          attemptedExternal := false }) := by
  refine ⟨?_, ?_, ?_⟩
  · by_cases h : (canMakeRequest (fireResetTimer tracker now) now).1
    · cases apiKey with
      | none => simp [getOutfitSuggestions, h]
      | some k => cases external <;> simp [getOutfitSuggestions, h]
    · rw [Bool.not_eq_true] at h
      simp [getOutfitSuggestions, h]
  · intro he
    subst he
    by_cases h : (canMakeRequest (fireResetTimer tracker now) now).1
    · cases apiKey with
      | none => simp [getOutfitSuggestions, h]
      | some k => simp [getOutfitSuggestions, h]
    · rw [Bool.not_eq_true] at h
      simp [getOutfitSuggestions, h]
  · intro h
    simp [getOutfitSuggestions, h]

/-- A tracker that has exhausted the 60-requests-per-minute budget. -/
def exhaustedTracker : RequestTracker :=
  { lastRequestTime := 500, requestCount := 60, resetTimer := some 60500 }

/-- C7 witness: `getOutfitSuggestions_rateLimiter_spec` at a concrete
exhausted tracker (60 requests already in the window), showing the call
skips the external attempt and resolves with the mock. -/
theorem getOutfitSuggestions_rateLimiter_spec_witness :
    getOutfitSuggestions exhaustedTracker 1000 (some "key") c7Item [] (.ok []) true 0 =
      { response := mockGeminiResponse c7Item (getColorName c7Item.color)
          (mapLookup [] c7Item.categoryId "unknown") true 0,
        tracker := (canMakeRequest (fireResetTimer exhaustedTracker 1000) 1000).2,
        attemptedExternal := false } :=
  (getOutfitSuggestions_rateLimiter_spec exhaustedTracker 1000 (some "key") c7Item []
      (.ok []) true 0).2.2 (by decide)

/-- `getItemsByType` of `WardrobeContext.tsx`: filter the wardrobe by
body-slot type. -/
def getItemsByType (clothingItems : List ClothingItem) (t : ClothingType) :
    List ClothingItem :=
  clothingItems.filter (fun item => item.type == t)

/-- An `Outfit` row of the `outfits` table / the in-memory weekly plan,
restricted to the fields the engine reads and writes. -/
structure Outfit where
  upper : ClothingItem
  bottom : ClothingItem
  day : String
  createdAt : Nat
  user_id : Option String
deriving DecidableEq, Repr

/-- `DAYS_OF_WEEK` of the outfit context. -/
def DAYS_OF_WEEK : List String :=
  ["monday", "tuesday", "wednesday", "thursday", "friday", "saturday", "sunday"]

/-- The nondeterminism one `generateOutfitForDay` call consumes: the fair
coin choosing the seed pool, the random seed index, the outcome of
`getSuggestions` (cache-or-API; `.error` models a thrown exception), the
randomness of the matcher, and the random indices of the two fallback
paths.  Indices are taken modulo the pool length, mirroring
`Math.floor(Math.random() * length)`. -/
structure DayEnv where
  startWithUpper : Bool
  seedIdx : Nat
  suggs : Except Unit (List String)
  matchRand : List Nat
  complementIdx : Nat
  errUpperIdx : Nat
  errBottomIdx : Nat

/-- `generateOutfitForDay` of the outfit context: pick a seed from the
coin-chosen pool (throwing when it is empty), then try
suggestions → parse → match; pair the seed with the first matched item, or
with a random opposite-slot item when nothing matched (throwing when the
opposite pool is empty); any exception in the try block falls back to a
fully random upper+bottom pairing, which itself throws when either pool is
empty. -/
def generateOutfitForDay (day : String) (upperItems bottomItems : List ClothingItem)
    (userId : Option String) (now : Nat) (env : DayEnv)
    (parseSugg : String → Option SuggestionItem) : Except String Outfit :=
  let items := if env.startWithUpper then upperItems else bottomItems
  if items.length = 0 then
    .error "No items available"
  else
    let selectedItem := items.getD (env.seedIdx % items.length) default
    let tryResult : Except String Outfit :=
      match env.suggs with
      | .error _ => .error "Error getting outfit suggestions"
      | .ok suggestionStrings =>
        let suggestions := (suggestionStrings.map parseSugg).filter Option.isSome
        let availableItems := if env.startWithUpper then bottomItems else upperItems
        let matchedItems := findMatchingItems suggestions availableItems env.matchRand
        match matchedItems with
        | matchedItem :: _ =>
          .ok { upper := if env.startWithUpper then selectedItem else matchedItem,
                bottom := if env.startWithUpper then matchedItem else selectedItem,
                day := day, createdAt := now, user_id := userId }
        | [] =>
          if availableItems.length = 0 then
            .error "No complement items available"
          else
            let randomComplement :=
              availableItems.getD (env.complementIdx % availableItems.length) default
            .ok { upper := if env.startWithUpper then selectedItem else randomComplement,
                  bottom := if env.startWithUpper then randomComplement else selectedItem,
                  day := day, createdAt := now, user_id := userId }
    match tryResult with
    | .ok outfit => .ok outfit
    | .error _ =>
      if upperItems.length = 0 ∨ bottomItems.length = 0 then
        .error "Not enough items to create an outfit"
      else
        .ok { upper := upperItems.getD (env.errUpperIdx % upperItems.length) default,
              bottom := bottomItems.getD (env.errBottomIdx % bottomItems.length) default,
              day := day, createdAt := now, user_id := userId }

/-- A positional `getD` with an in-range index is a member of the list. -/
theorem getD_mod_mem {l : List ClothingItem} (h : ¬ l.length = 0) (i : Nat) :
    l.getD (i % l.length) default ∈ l := by
  have hp : 0 < l.length := Nat.pos_of_ne_zero h
  rw [List.getD_eq_getElem _ _ (Nat.mod_lt _ hp)]
  exact List.getElem_mem _

/-- Every successful `generateOutfitForDay` draws its upper from the upper
pool and its bottom from the bottom pool, stamps the requested day and the
caller's user id. -/
theorem generateOutfitForDay_ok (day : String)
    (upperItems bottomItems : List ClothingItem) (userId : Option String)
    (now : Nat) (env : DayEnv) (parseSugg : String → Option SuggestionItem)
    (o : Outfit)
    (h : generateOutfitForDay day upperItems bottomItems userId now env parseSugg =
      .ok o) :
    o.upper ∈ upperItems ∧ o.bottom ∈ bottomItems ∧ o.day = day ∧
      o.user_id = userId := by
  obtain ⟨coin, seedIdx, suggsE, matchRand, cIdx, uIdx, bIdx⟩ := env
  cases coin with
  | false =>
    simp only [generateOutfitForDay, Bool.false_eq_true, if_false, ite_false] at h
    split at h
    · simp at h
    · rename_i h0
      split at h
      · rename_i outfit heq
        rw [Except.ok.inj h] at heq
        split at heq
        · simp at heq
        · rename_i suggestionStrings
          split at heq
          · rename_i matchedItem rest hm
            obtain rfl : _ = o := Except.ok.inj heq
            refine ⟨?_, ?_, rfl, rfl⟩
            · show matchedItem ∈ upperItems
              have hmem : matchedItem ∈ findMatchingItems
                  ((suggestionStrings.map parseSugg).filter Option.isSome) upperItems
                  matchRand := by
                rw [hm]
                exact List.mem_cons_self _ _
              exact (mem_findMatchingItems _ _ _ hmem).1
            · show bottomItems.getD (seedIdx % bottomItems.length) default ∈ bottomItems
              exact getD_mod_mem h0 seedIdx
          · split at heq
            · simp at heq
            · rename_i h1
              obtain rfl : _ = o := Except.ok.inj heq
              refine ⟨?_, ?_, rfl, rfl⟩
              · show upperItems.getD (cIdx % upperItems.length) default ∈ upperItems
                exact getD_mod_mem h1 cIdx
              · show bottomItems.getD (seedIdx % bottomItems.length) default ∈ bottomItems
                exact getD_mod_mem h0 seedIdx
      · rename_i e heq
        split at h
        · simp at h
        · rename_i h1
          obtain rfl : _ = o := Except.ok.inj h
          push_neg at h1
          refine ⟨?_, ?_, rfl, rfl⟩
          · show upperItems.getD (uIdx % upperItems.length) default ∈ upperItems
            exact getD_mod_mem h1.1 uIdx
          · show bottomItems.getD (bIdx % bottomItems.length) default ∈ bottomItems
            exact getD_mod_mem h1.2 bIdx
  | true =>
    simp only [generateOutfitForDay, if_true, ite_true] at h
    split at h
    · simp at h
    · rename_i h0
      split at h
      · rename_i outfit heq
        rw [Except.ok.inj h] at heq
        split at heq
        · simp at heq
        · rename_i suggestionStrings
          split at heq
          · rename_i matchedItem rest hm
            obtain rfl : _ = o := Except.ok.inj heq
            refine ⟨?_, ?_, rfl, rfl⟩
            · show upperItems.getD (seedIdx % upperItems.length) default ∈ upperItems
              exact getD_mod_mem h0 seedIdx
            · show matchedItem ∈ bottomItems
              have hmem : matchedItem ∈ findMatchingItems
                  ((suggestionStrings.map parseSugg).filter Option.isSome) bottomItems
                  matchRand := by
                rw [hm]
                exact List.mem_cons_self _ _
              exact (mem_findMatchingItems _ _ _ hmem).1
          · split at heq
            · simp at heq
            · rename_i h1
              obtain rfl : _ = o := Except.ok.inj heq
              refine ⟨?_, ?_, rfl, rfl⟩
              · show upperItems.getD (seedIdx % upperItems.length) default ∈ upperItems
                exact getD_mod_mem h0 seedIdx
              · show bottomItems.getD (cIdx % bottomItems.length) default ∈ bottomItems
                exact getD_mod_mem h1 cIdx
      · rename_i e heq
        split at h
        · simp at h
        · rename_i h1
          obtain rfl : _ = o := Except.ok.inj h
          push_neg at h1
          refine ⟨?_, ?_, rfl, rfl⟩
          · show upperItems.getD (uIdx % upperItems.length) default ∈ upperItems
            exact getD_mod_mem h1.1 uIdx
          · show bottomItems.getD (bIdx % bottomItems.length) default ∈ bottomItems
            exact getD_mod_mem h1.2 bIdx

/-- C10: every outfit a successful `generateOutfitForDay` produces —
through the coin-flip seed path, the matched-item path, the
random-complement fallback, or the per-day error fallback — has its upper
drawn from the wardrobe's items of type upper and its bottom from the
items of type bottom; the slots are never swapped and never hold two items
of the same slot type. -/
theorem generateOutfitForDay_slot_invariant (day : String)
    (clothingItems : List ClothingItem) (userId : Option String) (now : Nat)
    (env : DayEnv) (parseSugg : String → Option SuggestionItem) (o : Outfit)
    (h : generateOutfitForDay day (getItemsByType clothingItems .upper)
      (getItemsByType clothingItems .bottom) userId now env parseSugg = .ok o) :
    o.upper.type = .upper ∧ o.bottom.type = .bottom := by
  obtain ⟨hu, hb, -, -⟩ := generateOutfitForDay_ok _ _ _ _ _ _ _ _ h
  exact ⟨eq_of_beq (List.mem_filter.mp hu).2, eq_of_beq (List.mem_filter.mp hb).2⟩

/-- A white upper item used by the generator witnesses. -/
def wUpperItem : ClothingItem :=
  { id := "u1", type := .upper, categoryId := "cat-1", subcategoryId := "sub-1",
    color := "#FFFFFF" }

/-- A fixed day environment: seed from uppers, empty suggestion list, all
random indices zero. -/
def wDayEnv : DayEnv :=
  { startWithUpper := true, seedIdx := 0, suggs := .ok [], matchRand := [],
    complementIdx := 0, errUpperIdx := 0, errBottomIdx := 0 }

/-- The outfit the fixed environment produces for monday. -/
def wMonOutfit : Outfit :=
  { upper := wUpperItem, bottom := wJeansItem, day := "monday", createdAt := 0,
    user_id := some "u1" }

/-- C10 witness: `generateOutfitForDay_slot_invariant` on a concrete
two-item wardrobe (the run goes through the random-complement fallback). -/
theorem generateOutfitForDay_slot_invariant_witness :
    wMonOutfit.upper.type = .upper ∧ wMonOutfit.bottom.type = .bottom :=
  generateOutfitForDay_slot_invariant "monday" [wUpperItem, wJeansItem] (some "u1")
    0 wDayEnv (fun _ => none) wMonOutfit (by rfl)

/-- The outfit-context state the engine manipulates: the in-memory weekly
plan, the `isGenerating` flag, the module-level in-progress guard ref, and
the persisted rows of the Supabase `outfits` table. -/
structure OutfitContextState where
  weeklyOutfits : List Outfit
  isGenerating : Bool
  generationInProgress : Bool
  outfitStore : List Outfit
deriving DecidableEq, Repr

/-- The outcome `generateWeeklyOutfits` reports through its toasts:
authentication required, generation in progress, not enough clothing
items, incomplete wardrobe, success, or the catch-all error toast. -/
inductive GenResult
  | authRequired
  | generationInProgress
  | notEnoughItems
  | incompleteWardrobe
  | success
  | genError
deriving DecidableEq, Repr

/-- The outcome `regenerateOutfitForDay` reports through its toasts. -/
inductive RegenResult
  | authRequired
  | generationInProgress
  | incompleteWardrobe
  | success
  | regenError
deriving DecidableEq, Repr

/-- Whether the Supabase delete and insert calls of a run fail. -/
structure PersistEnv where
  deleteFails : Bool
  insertFails : Bool
deriving DecidableEq, Repr

/-- The `finally` clause shared by both generation entry points: clear the
`isGenerating` flag and release the in-progress guard. -/
def finishRun (st : OutfitContextState) : OutfitContextState :=
  { st with isGenerating := false, generationInProgress := false }

/-- `generateWeeklyOutfits` of the outfit context: authentication check,
in-progress guard, wardrobe checks, one `generateOutfitForDay` per day of
the week (failed days are skipped), then delete-all-for-owner followed by
batch insert; the in-memory plan is replaced by the inserted rows. -/
def generateWeeklyOutfits (st : OutfitContextState) (user : Option String)
    (clothingItems : List ClothingItem) (envOf : String → DayEnv)
    (parseSugg : String → Option SuggestionItem) (persist : PersistEnv)
    (now : Nat) : OutfitContextState × GenResult :=
  match user with
  | none => (st, .authRequired)
  | some uid =>
    if st.generationInProgress then
      (st, .generationInProgress)
    else
      let st := { st with generationInProgress := true, isGenerating := true }
      if clothingItems.length = 0 then
        (finishRun st, .notEnoughItems)
      else
        let upperItems := getItemsByType clothingItems .upper
        let bottomItems := getItemsByType clothingItems .bottom
        if upperItems.length = 0 ∨ bottomItems.length = 0 then
          (finishRun st, .incompleteWardrobe)
        else
          let newOutfits := DAYS_OF_WEEK.filterMap (fun day =>
            (generateOutfitForDay day upperItems bottomItems (some uid) now
              (envOf day) parseSugg).toOption)
          if persist.deleteFails then
            (finishRun st, .genError)
          else
            let st := { st with outfitStore :=
              st.outfitStore.filter (fun row => row.user_id != some uid) }
            if persist.insertFails then
              (finishRun st, .genError)
            else
              let st := { st with
                outfitStore := st.outfitStore ++ newOutfits,
                weeklyOutfits := newOutfits }
              (finishRun st, .success)

/-- `regenerateOutfitForDay` of the outfit context: authentication check,
the same in-progress guard, wardrobe check, one `generateOutfitForDay`
scoped to the requested day, delete of the (owner, day) row, insert of the
new row, and an in-memory merge that removes any entry for that day and
appends the new one. -/
def regenerateOutfitForDay (st : OutfitContextState) (user : Option String)
    (clothingItems : List ClothingItem) (day : String) (env : DayEnv)
    (parseSugg : String → Option SuggestionItem) (persist : PersistEnv)
    (now : Nat) : OutfitContextState × RegenResult :=
  match user with
  | none => (st, .authRequired)
  | some uid =>
    if st.generationInProgress then
      (st, .generationInProgress)
    else
      let st := { st with generationInProgress := true, isGenerating := true }
      let upperItems := getItemsByType clothingItems .upper
      let bottomItems := getItemsByType clothingItems .bottom
      if upperItems.length = 0 ∨ bottomItems.length = 0 then
        (finishRun st, .incompleteWardrobe)
      else
        match generateOutfitForDay day upperItems bottomItems (some uid) now env
          parseSugg with
        | .error _ => (finishRun st, .regenError)
        | .ok newOutfit =>
          if persist.deleteFails then
            (finishRun st, .regenError)
          else
            let st := { st with outfitStore := st.outfitStore.filter (fun row => !(row.user_id == some uid && row.day == day)) }
            if persist.insertFails then
              (finishRun st, .regenError)
            else
              let st := { st with
                outfitStore := st.outfitStore ++ [newOutfit],
                weeklyOutfits := st.weeklyOutfits.filter (fun x => x.day != day) ++ [newOutfit] }
              (finishRun st, .success)

/-- C1: while the shared in-progress guard is set, an authenticated call to
either `generateWeeklyOutfits` or `regenerateOutfitForDay` returns
immediately with the generation-in-progress notice and leaves the state —
in particular the persisted outfit store and the in-memory weekly plan —
completely unchanged.  Every state mutation of either entry point sits
behind this guard check, and the event-loop model is sequential, so at
most one run is ever active at a time. -/
theorem inProgress_guard_rejects (st : OutfitContextState) (uid : String)
    (clothingItems : List ClothingItem) (envOf : String → DayEnv)
    (parseSugg : String → Option SuggestionItem) (persist : PersistEnv)
    (now : Nat) (day : String) (env : DayEnv)
    (h : st.generationInProgress = true) :
    generateWeeklyOutfits st (some uid) clothingItems envOf parseSugg persist now =
      (st, .generationInProgress) ∧
    regenerateOutfitForDay st (some uid) clothingItems day env parseSugg persist
        now =
      (st, .generationInProgress) := by
  constructor
  · simp [generateWeeklyOutfits, h]
  · simp [regenerateOutfitForDay, h]

/-- A state in which a generation run is currently active. -/
def busyState : OutfitContextState :=
  { weeklyOutfits := [], isGenerating := true, generationInProgress := true,
    outfitStore := [] }

/-- C1 witness: `inProgress_guard_rejects` at a concrete busy state. -/
theorem inProgress_guard_rejects_witness :
    generateWeeklyOutfits busyState (some "u1") [wUpperItem, wJeansItem]
        (fun _ => wDayEnv) (fun _ => none) ⟨false, false⟩ 0 =
      (busyState, .generationInProgress) ∧
    regenerateOutfitForDay busyState (some "u1") [wUpperItem, wJeansItem] "monday"
        wDayEnv (fun _ => none) ⟨false, false⟩ 0 =
      (busyState, .generationInProgress) :=
  inProgress_guard_rejects busyState "u1" [wUpperItem, wJeansItem]
    (fun _ => wDayEnv) (fun _ => none) ⟨false, false⟩ 0 "monday" wDayEnv rfl

/-- A state with no active run and an empty plan and store. -/
def idleState : OutfitContextState :=
  { weeklyOutfits := [], isGenerating := false, generationInProgress := false,
    outfitStore := [] }

/-- C2 counterexample: the fully empty wardrobe has zero upper items, yet
the run aborts with the "Not enough clothing items" notice
(`notEnoughItems`), not the "Incomplete wardrobe" notice the claim
requires. -/
theorem generateWeeklyOutfits_emptyWardrobe_cex :
    getItemsByType [] .upper = [] ∧
    (generateWeeklyOutfits idleState (some "u1") [] (fun _ => wDayEnv)
        (fun _ => none) ⟨false, false⟩ 0).2 = .notEnoughItems ∧
    GenResult.notEnoughItems ≠ GenResult.incompleteWardrobe :=
  ⟨rfl, rfl, by decide⟩

/-- C2 amended: with no run active, a wardrobe with zero upper or zero
bottom items aborts the run before any persistence mutation — the store
and the in-memory plan in the final state are those of the initial state —
and the run is reported as incomplete wardrobe when the wardrobe is
nonempty, and as not-enough-clothing-items when it is entirely empty. -/
theorem generateWeeklyOutfits_insufficientWardrobe (st : OutfitContextState)
    (uid : String) (clothingItems : List ClothingItem) (envOf : String → DayEnv)
    (parseSugg : String → Option SuggestionItem) (persist : PersistEnv) (now : Nat)
    (hg : st.generationInProgress = false) :
    (clothingItems = [] →
      generateWeeklyOutfits st (some uid) clothingItems envOf parseSugg persist
          now =
        ({ st with isGenerating := false, generationInProgress := false },
          .notEnoughItems)) ∧
    (clothingItems ≠ [] →
      getItemsByType clothingItems .upper = [] ∨
        getItemsByType clothingItems .bottom = [] →
      generateWeeklyOutfits st (some uid) clothingItems envOf parseSugg persist
          now =
        ({ st with isGenerating := false, generationInProgress := false },
          .incompleteWardrobe)) := by
  obtain ⟨w, ig, gp, store⟩ := st
  obtain rfl : gp = false := hg
  constructor
  · intro hc
    subst hc
    simp [generateWeeklyOutfits, finishRun]
  · intro hc hpool
    have hlen : ¬ clothingItems.length = 0 := by
      simpa [List.length_eq_zero] using hc
    rcases hpool with h | h
    · simp [generateWeeklyOutfits, finishRun, hlen, h]
    · simp [generateWeeklyOutfits, finishRun, hlen, h]

/-- C2 witness: `generateWeeklyOutfits_insufficientWardrobe` on a wardrobe
holding a single upper item (so the bottom pool is empty). -/
theorem generateWeeklyOutfits_insufficientWardrobe_witness :
    generateWeeklyOutfits idleState (some "u1") [wUpperItem] (fun _ => wDayEnv)
        (fun _ => none) ⟨false, false⟩ 0 =
      ({ idleState with isGenerating := false, generationInProgress := false },
        .incompleteWardrobe) :=
  (generateWeeklyOutfits_insufficientWardrobe idleState "u1" [wUpperItem]
      (fun _ => wDayEnv) (fun _ => none) ⟨false, false⟩ 0 rfl).2
    (by decide) (Or.inr (by rfl))

/-- Filtering by `p` after filtering by a predicate `q` that holds
whenever `p` does equals filtering by `p` alone. -/
theorem filter_filter_of_imp {α : Type} (p q : α → Bool)
    (himp : ∀ x, p x = true → q x = true) :
    ∀ l : List α, (l.filter q).filter p = l.filter p := by
  intro l
  induction l with
  | nil => rfl
  | cons a l ih =>
    cases hq : q a with
    | true => cases hp : p a <;> simp [List.filter_cons, hq, hp, ih]
    | false =>
      have hp : p a = false := by
        cases hpa : p a
        · rfl
        · rw [himp a hpa] at hq
          cases hq
      simp [List.filter_cons, hq, hp, ih]

/-- C3: a successful `regenerateOutfitForDay` for a day replaces only that
day's entry: the persisted outfit rows for every other day and the
in-memory plan entries for every other day are identical before and after
the call. -/
theorem regenerateOutfitForDay_frame (st : OutfitContextState) (uid : String)
    (clothingItems : List ClothingItem) (day : String) (env : DayEnv)
    (parseSugg : String → Option SuggestionItem) (persist : PersistEnv) (now : Nat)
    (o : Outfit)
    (hg : st.generationInProgress = false)
    (hgen : generateOutfitForDay day (getItemsByType clothingItems .upper)
      (getItemsByType clothingItems .bottom) (some uid) now env parseSugg = .ok o)
    (hdel : persist.deleteFails = false) (hins : persist.insertFails = false) :
    (regenerateOutfitForDay st (some uid) clothingItems day env parseSugg persist
        now).2 = .success ∧
    (regenerateOutfitForDay st (some uid) clothingItems day env parseSugg persist
        now).1.outfitStore.filter (fun row => row.day != day) =
      st.outfitStore.filter (fun row => row.day != day) ∧
    (regenerateOutfitForDay st (some uid) clothingItems day env parseSugg persist
        now).1.weeklyOutfits.filter (fun x => x.day != day) =
      st.weeklyOutfits.filter (fun x => x.day != day) := by
  obtain ⟨hu, hb, hday, -⟩ := generateOutfitForDay_ok _ _ _ _ _ _ _ _ hgen
  have hune : ¬ (getItemsByType clothingItems .upper).length = 0 := by
    intro hc
    rw [List.length_eq_zero] at hc
    rw [hc] at hu
    simp at hu
  have hbne : ¬ (getItemsByType clothingItems .bottom).length = 0 := by
    intro hc
    rw [List.length_eq_zero] at hc
    rw [hc] at hb
    simp at hb
  obtain ⟨w, ig, gp, store⟩ := st
  obtain rfl : gp = false := hg
  have hresult : regenerateOutfitForDay ⟨w, ig, false, store⟩ (some uid)
      clothingItems day env parseSugg persist now =
      (⟨w.filter (fun x => x.day != day) ++ [o], false, false,
        store.filter (fun row => !(row.user_id == some uid && row.day == day)) ++
          [o]⟩,
        .success) := by
    simp [regenerateOutfitForDay, hune, hbne, hgen, hdel, hins, finishRun]
  rw [hresult]
  have hpo : (o.day != day) = false := by
    simp [hday]
  refine ⟨rfl, ?_, ?_⟩
  · show (List.filter _ (store.filter _ ++ [o])) = _
    rw [List.filter_append]
    have h1 : List.filter (fun row => row.day != day) [o] = [] := by
      simp only [List.filter, hpo]
    rw [h1, List.append_nil]
    exact filter_filter_of_imp _ _
      (fun x hx => by
        have hxe : (x.day == day) = false := by
          simpa [bne] using hx
        simp [hxe]) store
  · show (List.filter _ (w.filter _ ++ [o])) = _
    rw [List.filter_append]
    have h1 : List.filter (fun x => x.day != day) [o] = [] := by
      simp only [List.filter, hpo]
    rw [h1, List.append_nil]
    exact filter_filter_of_imp _ _ (fun x hx => hx) w

/-- The outfit the fixed environment produces for wednesday. -/
def wWedOutfit : Outfit :=
  { upper := wUpperItem, bottom := wJeansItem, day := "wednesday", createdAt := 0,
    user_id := some "u1" }

/-- A state holding a monday outfit in both the store and the plan. -/
def planState : OutfitContextState :=
  { weeklyOutfits := [wMonOutfit], isGenerating := false,
    generationInProgress := false, outfitStore := [wMonOutfit] }

/-- C3 witness: `regenerateOutfitForDay_frame` on a concrete regeneration
of wednesday over a plan holding a monday entry. -/
theorem regenerateOutfitForDay_frame_witness :
    (regenerateOutfitForDay planState (some "u1") [wUpperItem, wJeansItem]
        "wednesday" wDayEnv (fun _ => none) ⟨false, false⟩ 0).2 = .success ∧
    (regenerateOutfitForDay planState (some "u1") [wUpperItem, wJeansItem]
        "wednesday" wDayEnv (fun _ => none) ⟨false, false⟩
        0).1.outfitStore.filter (fun row => row.day != "wednesday") =
      planState.outfitStore.filter (fun row => row.day != "wednesday") ∧
    (regenerateOutfitForDay planState (some "u1") [wUpperItem, wJeansItem]
        "wednesday" wDayEnv (fun _ => none) ⟨false, false⟩
        0).1.weeklyOutfits.filter (fun x => x.day != "wednesday") =
      planState.weeklyOutfits.filter (fun x => x.day != "wednesday") :=
  regenerateOutfitForDay_frame planState "u1" [wUpperItem, wJeansItem] "wednesday"
    wDayEnv (fun _ => none) ⟨false, false⟩ 0 wWedOutfit rfl (by rfl) rfl rfl

end StyleSense
